import Mathlib

/-!
Verification of the training and evaluation harness in
src/poc/jamendoSpec/solver.py (class Solver).

The Python source is shallowly embedded below.  Matrices (the numpy
arrays of predictions and ground truth) are lists of rows of rationals;
the sklearn metric calls are embedded as computable functions on those
matrices, returning Option values where the sklearn call can raise
ValueError (none embeds the raised exception, which the source catches
with try/except).  The torch checkpoint layer is embedded as a single
storage slot holding a serialized object tree.
-/

namespace JamendoSolver

/-- A matrix: a list of rows, one row per sample, one entry per label.
Embeds the numpy 2-d arrays built from prd_array and gt_array. -/
abbrev Mat := List (List ℚ)

/-- Column j of a matrix (out-of-range entries default to 0; all claims
carry shape preconditions under which the default is never used). -/
def col (m : Mat) (j : Nat) : List ℚ :=
  m.map (fun r => r.getD j 0)

/-- Sum of column j, embedding y_true.sum(axis=0)[j] in get_auc_turbo. -/
def colSum (m : Mat) (j : Nat) : ℚ :=
  (col m j).sum

/-- Indices of the retained columns, embedding the boolean mask
cols = y_true.sum(axis=0) <= 0 followed by the selection [:, ~cols]
(numpy keeps, in order, exactly the columns where the mask is False). -/
def keptIdx (m : Mat) (w : Nat) : List Nat :=
  (List.range w).filter (fun j => decide (0 < colSum m j))

/-- Column selection m[:, idx], embedding y_true[:, ~cols] and
y_preds[:, ~cols]. -/
def selectCols (m : Mat) (idx : List Nat) : Mat :=
  m.map (fun r => idx.map (fun j => r.getD j 0))

/-- The (score, truth) pairs of column j, pairing predictions with
ground truth row by row. -/
def colPairs (pr gt : Mat) (j : Nat) : List (ℚ × ℚ) :=
  List.zip (col pr j) (col gt j)

/-- Entries of a column whose ground truth is the positive class 1. -/
def posOf (c : List (ℚ × ℚ)) : List (ℚ × ℚ) :=
  c.filter (fun x => decide (x.2 = 1))

/-- Entries of a column whose ground truth is not the positive class. -/
def negOf (c : List (ℚ × ℚ)) : List (ℚ × ℚ) :=
  c.filter (fun x => decide (¬ x.2 = 1))

/-- Contribution of one (positive, negative) score pair to the
Mann-Whitney form of the ROC-AUC. -/
def pairScore (p n : ℚ) : ℚ :=
  if n < p then 1 else if p = n then 1/2 else 0

/-- sklearn metrics.roc_auc_score on one binary column: the Mann-Whitney
statistic.  none embeds the ValueError raised when only one class is
present in the column. -/
def rocCol (c : List (ℚ × ℚ)) : Option ℚ :=
  let P := posOf c
  let N := negOf c
  if P = [] ∨ N = [] then none
  else some
    ((P.map (fun p => (N.map (fun n => pairScore p.1 n.1)).sum)).sum /
      ((P.length : ℚ) * (N.length : ℚ)))

/-- True positives at threshold t (scores at least t with truth 1). -/
def tpGe (c : List (ℚ × ℚ)) (t : ℚ) : Nat :=
  (c.filter (fun x => decide (t ≤ x.1 ∧ x.2 = 1))).length

/-- True positives strictly above threshold t. -/
def tpGt (c : List (ℚ × ℚ)) (t : ℚ) : Nat :=
  (c.filter (fun x => decide (t < x.1 ∧ x.2 = 1))).length

/-- False positives at threshold t. -/
def fpGe (c : List (ℚ × ℚ)) (t : ℚ) : Nat :=
  (c.filter (fun x => decide (t ≤ x.1 ∧ ¬ x.2 = 1))).length

/-- sklearn metrics.average_precision_score on one column: the step-wise
sum of (recall increment) times (precision) over the distinct score
thresholds.  none embeds the failure when the column has no positives. -/
def apCol (c : List (ℚ × ℚ)) : Option ℚ :=
  let npos := (posOf c).length
  if npos = 0 then none
  else some
    ((((c.map Prod.fst).dedup).map (fun t =>
      (((tpGe c t : ℚ) - (tpGt c t : ℚ)) / (npos : ℚ)) *
        ((tpGe c t : ℚ) / ((tpGe c t : ℚ) + (fpGe c t : ℚ))))).sum)

/-- Label-ranking average precision of one sample row
(scores, binary truths), following sklearn: rows whose relevant set is
empty or full contribute 1. -/
def lrapRow (scores labels : List ℚ) : ℚ :=
  let pairs := List.zip scores labels
  let rel := pairs.filter (fun x => decide (x.2 = 1))
  if rel.length = 0 ∨ rel.length = pairs.length then 1
  else
    ((rel.map (fun x =>
      ((pairs.filter (fun y => decide (x.1 ≤ y.1 ∧ y.2 = 1))).length : ℚ) /
        ((pairs.filter (fun y => decide (x.1 ≤ y.1))).length : ℚ))).sum) /
      (rel.length : ℚ)

/-- sklearn metrics.label_ranking_average_precision_score over a whole
matrix of w features.  none embeds the ValueError raised on an input
with zero samples or zero features. -/
def lwlrapOpt (w : Nat) (gt pr : Mat) : Option ℚ :=
  if gt.length = 0 ∨ w = 0 then none
  else some
    (((List.zip pr gt).map (fun x => lrapRow x.1 x.2)).sum / (gt.length : ℚ))

/-- sklearn metrics.mean_squared_error over a matrix of w features
(the source applies math.sqrt on top; the square root of a rational is
irrational in general, so the model keeps the radicand, which is 0
exactly when the RMSE is 0).  none embeds the ValueError raised on an
input with zero samples or zero features. -/
def msqOpt (w : Nat) (gt pr : Mat) : Option ℚ :=
  if gt.length = 0 ∨ w = 0 then none
  else some
    (((List.zip gt pr).map (fun x =>
      ((List.zip x.1 x.2).map (fun e => (e.1 - e.2) ^ 2)).sum)).sum /
      ((gt.length : ℚ) * (w : ℚ)))

/-- Sequencing of a list of optional values: some of the list when every
entry is some, none as soon as one entry is none.  Embeds the fact that
one ValueError aborts the whole sklearn call. -/
def seqOpt : List (Option ℚ) → Option (List ℚ)
  | [] => some []
  | none :: _ => none
  | some x :: rest => (seqOpt rest).map (x :: ·)

/-- metrics.roc_auc_score(y_true, y_preds, average=None) on a matrix of
w features: the per-column vector, none embedding the ValueError raised
when w = 0 or some column has a single class. -/
def rocAllOpt (w : Nat) (gt pr : Mat) : Option (List ℚ) :=
  if w = 0 then none
  else seqOpt ((List.range w).map (fun j => rocCol (colPairs pr gt j)))

/-- metrics.average_precision_score(y_true, y_preds, average=None). -/
def apAllOpt (w : Nat) (gt pr : Mat) : Option (List ℚ) :=
  if w = 0 then none
  else seqOpt ((List.range w).map (fun j => apCol (colPairs pr gt j)))

/-- metrics.roc_auc_score(..., average="macro"): the unweighted mean of
the per-column scores. -/
def rocMacroOpt (w : Nat) (gt pr : Mat) : Option ℚ :=
  (rocAllOpt w gt pr).map (fun l => l.sum / (w : ℚ))

/-- metrics.average_precision_score(..., average="macro"). -/
def apMacroOpt (w : Nat) (gt pr : Mat) : Option ℚ :=
  (apAllOpt w gt pr).map (fun l => l.sum / (w : ℚ))

/-- The values returned by get_auc_turbo together with the scalar
metrics it prints, named after the local variables of the source. -/
structure MetricReport where
  score_accuracy : ℚ
  score_lwlrap : ℚ
  score_mse : ℚ
  score_pr_auc : ℚ
  score_roc_auc : ℚ
  score_roc_auc_all : List ℚ
  score_pr_auc_all : List ℚ
deriving DecidableEq

/-- The first try/except block of get_auc_turbo: the scalars start at 0
and are assigned in source order (lwlrap, mse, pr_auc, roc_auc); a
ValueError leaves the remaining ones at 0 while keeping the values
already assigned. -/
def tryScalars (w : Nat) (gt pr : Mat) : ℚ × ℚ × ℚ × ℚ :=
  match lwlrapOpt w gt pr with
  | none => (0, 0, 0, 0)
  | some lw =>
    match msqOpt w gt pr with
    | none => (lw, 0, 0, 0)
    | some m =>
      match apMacroOpt w gt pr with
      | none => (lw, m, 0, 0)
      | some pa =>
        match rocMacroOpt w gt pr with
        | none => (lw, m, pa, 0)
        | some ra => (lw, m, pa, ra)

/-- The second try/except block of get_auc_turbo: the per-label vectors
start as np.zeros((len(labels_list), 1)) and are assigned in source
order (roc first, then pr); a ValueError leaves the remaining ones as
the zero-filled full-length arrays. -/
def tryVectors (w : Nat) (gt pr : Mat) (L : Nat) : List ℚ × List ℚ :=
  match rocAllOpt w gt pr with
  | none => (List.replicate L 0, List.replicate L 0)
  | some rv =>
    match apAllOpt w gt pr with
    | none => (rv, List.replicate L 0)
    | some pv => (rv, pv)

/-- get_auc_turbo(self, y_preds, y_true, labels_list): drop every column
of y_true whose sum is at most 0 from both matrices, then compute the
scalar and per-label metrics on the retained columns under the two
try/except blocks. -/
def get_auc_turbo (y_preds y_true : Mat) (labels_list : List String) : MetricReport :=
  let L := labels_list.length
  let idx := keptIdx y_true L
  let gtF := selectCols y_true idx
  let prF := selectCols y_preds idx
  let s := tryScalars idx.length gtF prF
  let v := tryVectors idx.length gtF prF L
  { score_accuracy := 0
    score_lwlrap := s.1
    score_mse := s.2.1
    score_pr_auc := s.2.2.1
    score_roc_auc := s.2.2.2
    score_roc_auc_all := v.1
    score_pr_auc_all := v.2 }

/-- A model state dict: an ordered flat map from parameter names to
tensor payloads (one rational stands for a tensor). -/
abbrev StateDict := List (String × ℚ)

/-- An object tree as serialized by torch.save and returned by
torch.load: either a tensor or a dict of named sub-objects. -/
inductive TObj
| tensor (v : ℚ)
| tdict (entries : List (String × TObj))

/-- The serialized form of a state dict: a flat dict of tensors. -/
def encodeSD (sd : StateDict) : TObj :=
  TObj.tdict (sd.map (fun kv => (kv.1, TObj.tensor kv.2)))

/-- Errors of the checkpoint layer: the FileNotFoundError of torch.load
on a never-written slot, and the RuntimeError of strict
load_state_dict on an object that is not a matching flat tensor dict. -/
inductive CkptError
| notFound
| badStateDict
deriving DecidableEq

/-- Decode a dict of sub-objects as a flat tensor dict; none when some
value is itself a dict rather than a tensor. -/
def decodeFlat : List (String × TObj) → Option StateDict
  | [] => some []
  | (k, TObj.tensor v) :: rest => (decodeFlat rest).map ((k, v) :: ·)
  | (_, TObj.tdict _) :: _ => none

/-- model.load_state_dict(S) with the default strict=True: succeeds only
when S is a flat dict of tensors whose key set equals the key set of
the model, and then replaces the model parameters. -/
def load_state_dict (modelSd : StateDict) (S : TObj) : Except CkptError StateDict :=
  match S with
  | TObj.tensor _ => Except.error CkptError.badStateDict
  | TObj.tdict es =>
    match decodeFlat es with
    | none => Except.error CkptError.badStateDict
    | some sd =>
      if (∀ k ∈ sd.map Prod.fst, k ∈ modelSd.map Prod.fst) ∧
         (∀ k ∈ modelSd.map Prod.fst, k ∈ sd.map Prod.fst) then Except.ok sd
      else Except.error CkptError.badStateDict

/-- torch.load(filename) against the single best-model slot: the slot is
none when no checkpoint has ever been written, and then the load fails
with the not-found error before anything else happens. -/
def torchLoad (slot : Option TObj) : Except CkptError TObj :=
  match slot with
  | none => Except.error CkptError.notFound
  | some S => Except.ok S

/-- Solver.load(self, filename): S = torch.load(filename) followed by
self.model.load_state_dict(S).  Note that S is passed whole, without
unwrapping any key. -/
def solverLoad (modelSd : StateDict) (slot : Option TObj) : Except CkptError StateDict :=
  match torchLoad slot with
  | Except.error e => Except.error e
  | Except.ok S => load_state_dict modelSd S

/-- Solver.save(self, filename): torch.save of the one-entry dict that
maps the key model to self.model.state_dict().  The written slot holds
the state dict wrapped one level deep under the key "model". -/
def solverSave (sd : StateDict) : Option TObj :=
  some (TObj.tdict [("model", encodeSD sd)])

/-- The checkpoint write actually performed inside Solver.train:
torch.save(self.model.state_dict(), path), which stores the raw
unwrapped state dict. -/
def trainSave (sd : StateDict) : Option TObj :=
  some (encodeSD sd)

/-- The best-metric state of one training run: best_roc_auc together
with the best-model checkpoint slot. -/
structure TrainCtx where
  best_roc_auc : ℚ
  ckpt : Option TObj

/-- The per-epoch best-model update of Solver.train: if the epoch
validation roc_auc strictly exceeds best_roc_auc, record it and save
the current model state to the best-model slot; otherwise leave both
untouched. -/
def valStep (ctx : TrainCtx) (modelSd : StateDict) (roc : ℚ) : TrainCtx :=
  if ctx.best_roc_auc < roc then
    { best_roc_auc := roc, ckpt := trainSave modelSd }
  else ctx

/-- The best-metric state after a sequence of per-epoch validation
results (model state at that epoch, validation roc_auc). -/
def runVal (ctx : TrainCtx) (obs : List (StateDict × ℚ)) : TrainCtx :=
  obs.foldl (fun c o => valStep c o.1 o.2) ctx

/-- The optimizer phases of Solver._schedule, in source spelling. -/
inductive OptState
| adam
| sgd_1
| sgd_2
| sgd_3
deriving DecidableEq

/-- The phase that each transition of _schedule targets; sgd_3 has no
outgoing transition. -/
def nextPhase : OptState → OptState
  | OptState.adam => OptState.sgd_1
  | OptState.sgd_1 => OptState.sgd_2
  | OptState.sgd_2 => OptState.sgd_3
  | OptState.sgd_3 => OptState.sgd_3

/-- Solver._schedule(self, current_optimizer, drop_counter), with the
checkpoint reload and optimizer reconfiguration side effects projected
away (scheduleE below keeps the reload).  The three ifs run in
sequence, exactly as in the source; note that the last branch switches
to sgd_3 without resetting drop_counter. -/
def schedule (s : OptState) (c : Nat) : OptState × Nat :=
  let p := if s = OptState.adam ∧ c = 60 then (OptState.sgd_1, 0) else (s, c)
  let p := if p.1 = OptState.sgd_1 ∧ p.2 = 20 then (OptState.sgd_2, 0) else p
  if p.1 = OptState.sgd_2 ∧ p.2 = 20 then (OptState.sgd_3, p.2) else p

/-- Solver._schedule with the self.load calls kept: every firing
transition first reloads the best checkpoint, and the exception of a
failing load propagates out of _schedule (the source has no try/except
around the loads). -/
def scheduleE (modelSd : StateDict) (slot : Option TObj) (s : OptState) (c : Nat) :
    Except CkptError (OptState × Nat) := do
  let p ← if s = OptState.adam ∧ c = 60 then do
      let _ ← solverLoad modelSd slot
      pure (OptState.sgd_1, 0)
    else pure (s, c)
  let p ← if p.1 = OptState.sgd_1 ∧ p.2 = 20 then do
      let _ ← solverLoad modelSd slot
      pure (OptState.sgd_2, 0)
    else pure p
  if p.1 = OptState.sgd_2 ∧ p.2 = 20 then do
    let _ ← solverLoad modelSd slot
    pure (OptState.sgd_3, p.2)
  else pure p

/-- One epoch of Solver.train as seen by the schedule: drop_counter is
incremented first, then _schedule is consulted. -/
def epochStep (p : OptState × Nat) : OptState × Nat :=
  schedule p.1 (p.2 + 1)

/-- The (current_optimizer, drop_counter) pair after n completed epochs
of Solver.train, starting from adam with drop_counter = 0. -/
def trainPhases : Nat → OptState × Nat
  | 0 => (OptState.adam, 0)
  | n + 1 => epochStep (trainPhases n)

/-- self.roc_auc_fn, built in Solver.__init__ from the subset name and
split number. -/
def roc_auc_fn (subset : String) (split : Nat) : String :=
  "roc_auc_" ++ subset ++ "_" ++ toString split ++ ".npy"

/-- self.pr_auc_fn, built in Solver.__init__. -/
def pr_auc_fn (subset : String) (split : Nat) : String :=
  "pr_auc_" ++ subset ++ "_" ++ toString split ++ ".npy"

/-- The two np.save calls at the end of Solver.test: the per-label
roc_auc vector and the per-label pr_auc vector of the metric report,
under their deterministic file names. -/
def savedArtifacts (subset : String) (split : Nat) (rep : MetricReport) :
    List (String × List ℚ) :=
  [(roc_auc_fn subset split, rep.score_roc_auc_all),
   (pr_auc_fn subset split, rep.score_pr_auc_all)]

/-- The outcome of Solver.test: the metric report and the persisted
artifact files. -/
structure TestOutput where
  report : MetricReport
  files : List (String × List ℚ)

/-- Solver.test: first self.load(self.model_fn) (whose exception
propagates, aborting before any batch of the loader is read), then one
accumulation pass over the evaluation batches, one get_auc_turbo call,
and the two np.save calls. -/
def testRun (modelSd : StateDict) (slot : Option TObj)
    (predict : StateDict → Mat → Mat) (batches : List (Mat × Mat))
    (labels_list : List String) (subset : String) (split : Nat) :
    Except CkptError TestOutput :=
  match solverLoad modelSd slot with
  | Except.error e => Except.error e
  | Except.ok sd =>
    let prd_array := (batches.map (fun b => predict sd b.1)).flatten
    let gt_array := (batches.map (fun b => b.2)).flatten
    let rep := get_auc_turbo prd_array gt_array labels_list
    Except.ok { report := rep, files := savedArtifacts subset split rep }

/-- The subset dispatch of Solver.__init__ together with get_tag_list:
the tag list is the top-50 file for top50tags and the full master file
otherwise, and the if/elif chain fixes num_class and slices the tag
list.  none embeds the fall-through of an unknown subset, for which the
source never sets num_class. -/
def initTagConfig (subset : String) (fullList top50 : List String) :
    Option (Nat × List String) :=
  let tl := if subset = "top50tags" then top50 else fullList
  if subset = "all" then some (183, tl)
  else if subset = "genre" then some (87, tl.take 87)
  else if subset = "instrument" then some (40, (tl.drop 87).take 40)
  else if subset = "moodtheme" then some (56, tl.drop 127)
  else if subset = "top50tags" then some (50, tl)
  else none

/-- Ground truth of concrete scenario 1 of the spec. -/
def gtScenario1 : Mat := [[1, 0, 1, 0], [0, 0, 1, 0], [1, 0, 0, 0]]

/-- A prediction matrix for scenario 1 on which every retained column
has both classes, so the sklearn calls succeed. -/
def predsScenario1 : Mat :=
  [[9/10, 1/2, 4/5, 1/10], [1/10, 1/2, 7/10, 1/5], [4/5, 1/2, 1/5, 3/10]]

/-- The four label names of scenario 1. -/
def tags4 : List String := ["t0", "t1", "t2", "t3"]

/-- A 3-label ground truth whose middle column is degenerate. -/
def gtTwoKept : Mat := [[1, 0, 0], [0, 0, 1]]

/-- Predictions for gtTwoKept on which both retained columns score 1. -/
def predsTwoKept : Mat := [[9/10, 1/10, 1/5], [1/5, 3/10, 4/5]]

/-- The three label names that go with gtTwoKept. -/
def tags3 : List String := ["tag_a", "tag_b", "tag_c"]

/-- A ground truth with no positives at all: every column degenerate. -/
def gtZero : Mat := [[0, 0]]

/-- Predictions that go with gtZero. -/
def predsZero : Mat := [[1/2, 1/4]]

/-- The two label names that go with gtZero. -/
def tags2 : List String := ["a", "b"]

/-- A one-parameter state dict used as a concrete model state. -/
def sd1 : StateDict := [("w", 1)]

/-- A ground truth both of whose columns are retained while column 0 is
all-positive, so the macro ROC call raises although the earlier scalar
calls succeed. -/
def gtOnePos : Mat := [[1, 0], [1, 1]]

/-- Predictions that go with gtOnePos. -/
def predsOnePos : Mat := [[3/4, 1/4], [1/2, 1/2]]

end JamendoSolver

namespace JamendoSolver

/-- Sequencing succeeds with a list of the same length as its input. -/
theorem seqOpt_length : ∀ {l : List (Option ℚ)} {xs : List ℚ},
    seqOpt l = some xs → xs.length = l.length
  | [], xs, h => by
    simp only [seqOpt, Option.some.injEq] at h
    simp [← h]
  | none :: t, xs, h => by
    simp [seqOpt] at h
  | some x :: t, xs, h => by
    simp only [seqOpt] at h
    cases hys : seqOpt t with
    | none => rw [hys] at h; simp at h
    | some ys =>
      rw [hys] at h
      simp only [Option.map_some', Option.some.injEq] at h
      have := seqOpt_length hys
      simp [← h, this]

/-- Selecting with an index list and then reading entry j reads the
original entry at index list position j. -/
theorem getD_map_select (r : List ℚ) : ∀ (idx : List Nat) (j : Nat),
    j < idx.length →
    (idx.map (fun i => r.getD i 0)).getD j 0 = r.getD (idx.getD j 0) 0
  | [], j, h => by simp at h
  | a :: t, 0, _ => by simp
  | a :: t, j + 1, h => by
    simp only [List.map_cons, List.getD_cons_succ]
    exact getD_map_select r t j (by simpa using h)

/-- Column j of the column-selected matrix is the original column at
index list position j. -/
theorem col_select (m : Mat) (idx : List Nat) (j : Nat) (h : j < idx.length) :
    col (selectCols m idx) j = col m (idx.getD j 0) := by
  simp only [col, selectCols, List.map_map]
  exact List.map_congr_left (fun r _ => getD_map_select r idx j h)

/-- Column pairs of the filtered matrices are column pairs of the
original matrices at the retained index. -/
theorem colPairs_select (pr gt : Mat) (idx : List Nat) (j : Nat) (h : j < idx.length) :
    colPairs (selectCols pr idx) (selectCols gt idx) j = colPairs pr gt (idx.getD j 0) := by
  simp only [colPairs, col_select _ _ _ h]

/-- Reading an index list positionally over its whole range is the
index list itself. -/
theorem range_map_getD {α : Type} : ∀ (idx : List Nat) (g : Nat → α),
    (List.range idx.length).map (fun j => g (idx.getD j 0)) = idx.map g
  | [], g => by simp
  | a :: t, g => by
    simp only [List.length_cons, List.range_succ_eq_map, List.map_cons,
      List.getD_cons_zero, List.map_map]
    refine congrArg (g a :: ·) ?_
    have he : ((fun j => g ((a :: t).getD j 0)) ∘ Nat.succ) = fun j => g (t.getD j 0) := by
      funext j
      simp
    rw [he]
    exact range_map_getD t g

/-- A per-column metric applied to every column of the filtered
matrices is that metric applied to the retained columns of the
originals. -/
theorem mapRange_select (f : List (ℚ × ℚ) → Option ℚ) (pr gt : Mat) (idx : List Nat) :
    (List.range idx.length).map
        (fun j => f (colPairs (selectCols pr idx) (selectCols gt idx) j)) =
      idx.map (fun j => f (colPairs pr gt j)) := by
  have h1 : ∀ j ∈ List.range idx.length,
      f (colPairs (selectCols pr idx) (selectCols gt idx) j) =
        f (colPairs pr gt (idx.getD j 0)) := by
    intro j hj
    rw [colPairs_select pr gt idx j (List.mem_range.mp hj)]
  rw [List.map_congr_left h1]
  exact range_map_getD idx (fun j => f (colPairs pr gt j))

/-- The first try block with every metric call succeeding. -/
theorem tryScalars_eq (w : Nat) (gt pr : Mat) (a b pa ra : ℚ)
    (h1 : lwlrapOpt w gt pr = some a) (h2 : msqOpt w gt pr = some b)
    (h3 : apMacroOpt w gt pr = some pa) (h4 : rocMacroOpt w gt pr = some ra) :
    tryScalars w gt pr = (a, b, pa, ra) := by
  unfold tryScalars
  rw [h1, h2, h3, h4]

/-- The first try block when already the first metric call raises. -/
theorem tryScalars_none1 (w : Nat) (gt pr : Mat)
    (h1 : lwlrapOpt w gt pr = none) :
    tryScalars w gt pr = (0, 0, 0, 0) := by
  unfold tryScalars
  rw [h1]

/-- The first try block when exactly the last metric call, the macro
ROC-AUC, raises: the values already assigned are kept and the roc
scalar stays 0. -/
theorem tryScalars_none4 (w : Nat) (gt pr : Mat) (a b pa : ℚ)
    (h1 : lwlrapOpt w gt pr = some a) (h2 : msqOpt w gt pr = some b)
    (h3 : apMacroOpt w gt pr = some pa) (h4 : rocMacroOpt w gt pr = none) :
    tryScalars w gt pr = (a, b, pa, 0) := by
  unfold tryScalars
  rw [h1, h2, h3, h4]

/-- The second try block with both per-label calls succeeding. -/
theorem tryVectors_eq (w : Nat) (gt pr : Mat) (L : Nat) (rv pv : List ℚ)
    (h1 : rocAllOpt w gt pr = some rv) (h2 : apAllOpt w gt pr = some pv) :
    tryVectors w gt pr L = (rv, pv) := by
  unfold tryVectors
  rw [h1, h2]

/-- The second try block when already the first per-label call raises:
both vectors keep their zero-filled full-length initial value. -/
theorem tryVectors_none1 (w : Nat) (gt pr : Mat) (L : Nat)
    (h1 : rocAllOpt w gt pr = none) :
    tryVectors w gt pr L = (List.replicate L 0, List.replicate L 0) := by
  unfold tryVectors
  rw [h1]

end JamendoSolver

namespace JamendoSolver

/-- When every sklearn call on the filtered data succeeds, the metric
report of get_auc_turbo carries the unweighted means over the retained
columns as scalars and the per-retained-column vectors. -/
theorem get_auc_turbo_success (y_preds y_true : Mat) (labels : List String)
    (rs ps : List ℚ) (hne : y_true ≠ [])
    (hk : keptIdx y_true labels.length ≠ [])
    (hroc : seqOpt ((keptIdx y_true labels.length).map
      (fun j => rocCol (colPairs y_preds y_true j))) = some rs)
    (hap : seqOpt ((keptIdx y_true labels.length).map
      (fun j => apCol (colPairs y_preds y_true j))) = some ps) :
    (get_auc_turbo y_preds y_true labels).score_roc_auc
        = rs.sum / ((keptIdx y_true labels.length).length : ℚ)
    ∧ (get_auc_turbo y_preds y_true labels).score_pr_auc
        = ps.sum / ((keptIdx y_true labels.length).length : ℚ)
    ∧ (get_auc_turbo y_preds y_true labels).score_roc_auc_all = rs
    ∧ (get_auc_turbo y_preds y_true labels).score_pr_auc_all = ps := by
  have hw : (keptIdx y_true labels.length).length ≠ 0 :=
    fun h => hk (List.length_eq_zero.mp h)
  have hgl : (selectCols y_true (keptIdx y_true labels.length)).length = y_true.length := by
    simp [selectCols]
  have hgl0 : (selectCols y_true (keptIdx y_true labels.length)).length ≠ 0 := by
    rw [hgl]
    exact fun h => hne (List.length_eq_zero.mp h)
  have hcond : ¬((selectCols y_true (keptIdx y_true labels.length)).length = 0
      ∨ (keptIdx y_true labels.length).length = 0) := by
    push_neg
    exact ⟨hgl0, hw⟩
  have ha : lwlrapOpt (keptIdx y_true labels.length).length
      (selectCols y_true (keptIdx y_true labels.length))
      (selectCols y_preds (keptIdx y_true labels.length)) ≠ none := by
    unfold lwlrapOpt
    rw [if_neg hcond]
    simp
  obtain ⟨a, ha⟩ := Option.ne_none_iff_exists'.mp ha
  have hb : msqOpt (keptIdx y_true labels.length).length
      (selectCols y_true (keptIdx y_true labels.length))
      (selectCols y_preds (keptIdx y_true labels.length)) ≠ none := by
    unfold msqOpt
    rw [if_neg hcond]
    simp
  obtain ⟨b, hb⟩ := Option.ne_none_iff_exists'.mp hb
  have hR : rocAllOpt (keptIdx y_true labels.length).length
      (selectCols y_true (keptIdx y_true labels.length))
      (selectCols y_preds (keptIdx y_true labels.length)) = some rs := by
    unfold rocAllOpt
    rw [if_neg hw, mapRange_select rocCol y_preds y_true (keptIdx y_true labels.length)]
    exact hroc
  have hA : apAllOpt (keptIdx y_true labels.length).length
      (selectCols y_true (keptIdx y_true labels.length))
      (selectCols y_preds (keptIdx y_true labels.length)) = some ps := by
    unfold apAllOpt
    rw [if_neg hw, mapRange_select apCol y_preds y_true (keptIdx y_true labels.length)]
    exact hap
  have hMacR : rocMacroOpt (keptIdx y_true labels.length).length
      (selectCols y_true (keptIdx y_true labels.length))
      (selectCols y_preds (keptIdx y_true labels.length))
      = some (rs.sum / ((keptIdx y_true labels.length).length : ℚ)) := by
    unfold rocMacroOpt
    rw [hR]
    rfl
  have hMacA : apMacroOpt (keptIdx y_true labels.length).length
      (selectCols y_true (keptIdx y_true labels.length))
      (selectCols y_preds (keptIdx y_true labels.length))
      = some (ps.sum / ((keptIdx y_true labels.length).length : ℚ)) := by
    unfold apMacroOpt
    rw [hA]
    rfl
  have hs := tryScalars_eq _ _ _ a b _ _ ha hb hMacA hMacR
  have hv := tryVectors_eq _ _ _ labels.length rs ps hR hA
  refine ⟨?_, ?_, ?_, ?_⟩
  · show (tryScalars (keptIdx y_true labels.length).length
      (selectCols y_true (keptIdx y_true labels.length))
      (selectCols y_preds (keptIdx y_true labels.length))).2.2.2 = _
    rw [hs]
  · show (tryScalars (keptIdx y_true labels.length).length
      (selectCols y_true (keptIdx y_true labels.length))
      (selectCols y_preds (keptIdx y_true labels.length))).2.2.1 = _
    rw [hs]
  · show (tryVectors (keptIdx y_true labels.length).length
      (selectCols y_true (keptIdx y_true labels.length))
      (selectCols y_preds (keptIdx y_true labels.length)) labels.length).1 = _
    rw [hv]
  · show (tryVectors (keptIdx y_true labels.length).length
      (selectCols y_true (keptIdx y_true labels.length))
      (selectCols y_preds (keptIdx y_true labels.length)) labels.length).2 = _
    rw [hv]

/-- When no column is retained, every sklearn call raises, so all
scalars stay 0 and both per-label vectors stay zero-filled at full
length. -/
theorem get_auc_turbo_empty (y_preds y_true : Mat) (labels : List String)
    (h : keptIdx y_true labels.length = []) :
    get_auc_turbo y_preds y_true labels =
      { score_accuracy := 0, score_lwlrap := 0, score_mse := 0,
        score_pr_auc := 0, score_roc_auc := 0,
        score_roc_auc_all := List.replicate labels.length 0,
        score_pr_auc_all := List.replicate labels.length 0 } := by
  have hw : (keptIdx y_true labels.length).length = 0 := by
    rw [h]
    rfl
  have hs := tryScalars_none1 (keptIdx y_true labels.length).length
      (selectCols y_true (keptIdx y_true labels.length))
      (selectCols y_preds (keptIdx y_true labels.length))
      (by unfold lwlrapOpt; rw [if_pos (Or.inr hw)])
  have hv := tryVectors_none1 (keptIdx y_true labels.length).length
      (selectCols y_true (keptIdx y_true labels.length))
      (selectCols y_preds (keptIdx y_true labels.length)) labels.length
      (by unfold rocAllOpt; rw [if_pos hw])
  simp only [get_auc_turbo]
  rw [hs, hv]

end JamendoSolver

namespace JamendoSolver

/-- The sgd_3 phase has no outgoing transition: _schedule leaves both
the phase and the counter alone. -/
theorem schedule_sgd3 (c : Nat) : schedule OptState.sgd_3 c = (OptState.sgd_3, c) := by
  simp [schedule]

/-- Decoding the encoding of a state dict recovers the state dict. -/
theorem decodeFlat_encodeSD : ∀ (sd : StateDict),
    decodeFlat (sd.map (fun kv => (kv.1, TObj.tensor kv.2))) = some sd
  | [] => rfl
  | kv :: rest => by
    simp only [List.map_cons, decodeFlat, decodeFlat_encodeSD rest, Option.map_some']

/-- The checkpoint write that Solver.train actually performs
(torch.save of the raw state dict) does round-trip through
Solver.load. -/
theorem trainSave_load_roundtrip (sd : StateDict) :
    solverLoad sd (trainSave sd) = Except.ok sd := by
  simp only [solverLoad, trainSave, torchLoad, load_state_dict, encodeSD,
    decodeFlat_encodeSD sd]
  rw [if_pos]
  exact ⟨fun k hk => hk, fun k hk => hk⟩

/-- C2: the claim states that Checkpoint Manager save followed by load
restores the saved parameters.  On the code this fails for every state:
Solver.save writes the dict wrapping the state dict under the key
"model", while Solver.load passes the loaded object whole to
model.load_state_dict, which rejects a dict whose value is itself a
dict rather than a tensor.  The round trip therefore errors instead of
restoring the state, for every model and every saved state. -/
theorem claim2_save_load_never_restores (modelSd sd : StateDict) :
    solverLoad modelSd ((solverSave sd)) = Except.error CkptError.badStateDict := by
  simp [solverLoad, solverSave, torchLoad, load_state_dict, encodeSD, decodeFlat]

/-- C3 counterexample: the claim states that the drop counter is reset
to zero immediately after every phase transition, in particular after
SGD_PHASE_2 to SGD_PHASE_3.  On the code the third transition fires at
counter 20 but leaves the counter at 20 instead of resetting it. -/
theorem claim3_counterexample :
    schedule OptState.sgd_2 20 = (OptState.sgd_3, 20)
    ∧ ¬ ((schedule OptState.sgd_2 20).2 = 0) := by decide

/-- C3 (amended): the drop counter is reset to zero on the transitions
ADAM to SGD_PHASE_1 and SGD_PHASE_1 to SGD_PHASE_2; the transition
SGD_PHASE_2 to SGD_PHASE_3 fires at counter 20 and keeps the counter at
20 (the phase being terminal, the counter is never consulted again). -/
theorem claim3_theorem :
    schedule OptState.adam 60 = (OptState.sgd_1, 0)
    ∧ schedule OptState.sgd_1 20 = (OptState.sgd_2, 0)
    ∧ schedule OptState.sgd_2 20 = (OptState.sgd_3, 20) := by decide

/-- C4: starting from adam with drop_counter 0, incrementing once per
epoch before consulting _schedule, the run is fully characterized: no
transition during the first 59 epochs, ADAM to SGD_PHASE_1 on epoch 60,
SGD_PHASE_1 to SGD_PHASE_2 on epoch 80, SGD_PHASE_2 to SGD_PHASE_3 on
epoch 100, and SGD_PHASE_3 forever after, so the phases are visited in
exactly the order adam, sgd_1, sgd_2, sgd_3. -/
theorem claim4_schedule_trajectory :
    (∀ n, n < 60 → trainPhases n = (OptState.adam, n))
    ∧ trainPhases 60 = (OptState.sgd_1, 0)
    ∧ (∀ m, m < 20 → trainPhases (60 + m) = (OptState.sgd_1, m))
    ∧ trainPhases 80 = (OptState.sgd_2, 0)
    ∧ (∀ m, m < 20 → trainPhases (80 + m) = (OptState.sgd_2, m))
    ∧ (∀ m, trainPhases (100 + m) = (OptState.sgd_3, 20 + m)) := by
  refine ⟨by decide, by decide, by decide, by decide, by decide, ?_⟩
  intro m
  induction m with
  | zero => decide
  | succ k ih =>
    have : 100 + (k + 1) = (100 + k) + 1 := by omega
    rw [this, trainPhases, ih]
    show schedule OptState.sgd_3 (20 + k + 1) = (OptState.sgd_3, 20 + (k + 1))
    rw [schedule_sgd3, Nat.add_assoc]

/-- C4 witness at concrete epochs. -/
theorem claim4_witness :
    trainPhases 59 = (OptState.adam, 59)
    ∧ trainPhases (60 + 13) = (OptState.sgd_1, 13)
    ∧ trainPhases (100 + 5) = (OptState.sgd_3, 20 + 5) :=
  ⟨claim4_schedule_trajectory.1 59 (by decide),
   claim4_schedule_trajectory.2.2.1 13 (by decide),
   claim4_schedule_trajectory.2.2.2.2.2 5⟩

/-- C8: with no checkpoint ever written to the best-model slot,
Solver.test fails with the not-found error whatever the evaluation
batches are (so before any batch is read), and a firing _schedule
transition propagates the same not-found error from its reload instead
of continuing. -/
theorem claim8_notfound_propagation :
    (∀ (modelSd : StateDict) (predict : StateDict → Mat → Mat)
       (batches : List (Mat × Mat)) (labels : List String)
       (subset : String) (split : Nat),
        testRun modelSd none predict batches labels subset split
          = Except.error CkptError.notFound)
    ∧ (∀ modelSd : StateDict,
        scheduleE modelSd none OptState.adam 60 = Except.error CkptError.notFound)
    ∧ (∀ modelSd : StateDict,
        scheduleE modelSd none OptState.sgd_1 20 = Except.error CkptError.notFound)
    ∧ (∀ modelSd : StateDict,
        scheduleE modelSd none OptState.sgd_2 20 = Except.error CkptError.notFound) := by
  refine ⟨fun _ _ _ _ _ _ => rfl, fun _ => rfl, fun _ => rfl, fun _ => rfl⟩

/-- C10: one invocation of _schedule performs at most one transition
(the result phase is the input phase or its immediate successor, so a
reset counter never cascades into the next transition in the same
call), an invocation on which no transition condition holds returns its
input unchanged, and sgd_3 is absorbing. -/
theorem claim10_schedule_single_step (s : OptState) (c : Nat) :
    (¬(s = OptState.adam ∧ c = 60) → ¬(s = OptState.sgd_1 ∧ c = 20) →
      ¬(s = OptState.sgd_2 ∧ c = 20) → schedule s c = (s, c))
    ∧ ((schedule s c).1 = s ∨ (schedule s c).1 = nextPhase s)
    ∧ schedule OptState.sgd_3 c = (OptState.sgd_3, c) := by
  refine ⟨?_, ?_, schedule_sgd3 c⟩
  · intro h1 h2 h3
    simp [schedule, h1, h2, h3]
  · cases s with
    | adam =>
      by_cases h : c = 60
      · subst h
        right
        decide
      · left
        simp [schedule, h]
    | sgd_1 =>
      by_cases h : c = 20
      · subst h
        right
        decide
      · left
        simp [schedule, h]
    | sgd_2 =>
      by_cases h : c = 20
      · subst h
        right
        decide
      · left
        simp [schedule, h]
    | sgd_3 =>
      left
      simp [schedule]

/-- C10 witness: a non-firing input is returned unchanged and sgd_3 is
absorbing, at concrete inputs. -/
theorem claim10_witness :
    schedule OptState.adam 5 = (OptState.adam, 5)
    ∧ schedule OptState.sgd_3 7 = (OptState.sgd_3, 7) :=
  ⟨(claim10_schedule_single_step OptState.adam 5).1 (by decide) (by decide) (by decide),
   (claim10_schedule_single_step OptState.adam 7).2.2⟩

end JamendoSolver

namespace JamendoSolver

/-- Concrete evaluation: scenario 1 retains columns 0 and 2. -/
theorem kept_scenario1 : keptIdx gtScenario1 tags4.length = [0, 2] := by
  norm_num [keptIdx, colSum, col, gtScenario1, tags4, List.filter, List.range_succ]

/-- Concrete evaluation: per-column ROC-AUC on the retained columns of
scenario 1. -/
theorem rocSeq_scenario1 :
    seqOpt ((keptIdx gtScenario1 tags4.length).map
      (fun j => rocCol (colPairs predsScenario1 gtScenario1 j))) = some [1, 1] := by
  rw [kept_scenario1]
  norm_num [colSum, col, gtScenario1, predsScenario1, List.filter, colPairs, rocCol,
    posOf, negOf, pairScore, seqOpt, List.zip]

/-- Concrete evaluation: per-column average precision on the retained
columns of scenario 1. -/
theorem apSeq_scenario1 :
    seqOpt ((keptIdx gtScenario1 tags4.length).map
      (fun j => apCol (colPairs predsScenario1 gtScenario1 j))) = some [1, 1] := by
  rw [kept_scenario1]
  norm_num [colSum, col, gtScenario1, predsScenario1, List.filter, colPairs, apCol,
    posOf, tpGe, tpGt, fpGe, seqOpt, List.zip,
    List.dedup_cons_of_mem, List.dedup_cons_of_not_mem]

/-- Concrete evaluation: gtTwoKept retains columns 0 and 2. -/
theorem kept_twoKept : keptIdx gtTwoKept tags3.length = [0, 2] := by
  norm_num [keptIdx, colSum, col, gtTwoKept, tags3, List.filter, List.range_succ]

/-- Concrete evaluation: per-column ROC-AUC on the retained columns of
gtTwoKept. -/
theorem rocSeq_twoKept :
    seqOpt ((keptIdx gtTwoKept tags3.length).map
      (fun j => rocCol (colPairs predsTwoKept gtTwoKept j))) = some [1, 1] := by
  rw [kept_twoKept]
  norm_num [colSum, col, gtTwoKept, predsTwoKept, List.filter, colPairs, rocCol,
    posOf, negOf, pairScore, seqOpt, List.zip]

/-- Concrete evaluation: per-column average precision on the retained
columns of gtTwoKept. -/
theorem apSeq_twoKept :
    seqOpt ((keptIdx gtTwoKept tags3.length).map
      (fun j => apCol (colPairs predsTwoKept gtTwoKept j))) = some [1, 1] := by
  rw [kept_twoKept]
  norm_num [colSum, col, gtTwoKept, predsTwoKept, List.filter, colPairs, apCol,
    posOf, tpGe, tpGt, fpGe, seqOpt, List.zip,
    List.dedup_cons_of_mem, List.dedup_cons_of_not_mem]

/-- Concrete evaluation: gtZero retains no column at all. -/
theorem kept_zero : keptIdx gtZero tags2.length = [] := by
  norm_num [keptIdx, colSum, col, gtZero, tags2, List.filter, List.range_succ]

/-- Concrete evaluation: gtOnePos retains both of its columns. -/
theorem kept_onePos : keptIdx gtOnePos tags2.length = [0, 1] := by
  norm_num [keptIdx, colSum, col, gtOnePos, tags2, List.filter, List.range_succ]

/-- Concrete evaluation: on gtOnePos the label-ranking average
precision succeeds with value 1. -/
theorem lwlrap_onePos :
    lwlrapOpt (keptIdx gtOnePos tags2.length).length
      (selectCols gtOnePos (keptIdx gtOnePos tags2.length))
      (selectCols predsOnePos (keptIdx gtOnePos tags2.length)) = some 1 := by
  rw [kept_onePos]
  norm_num [lwlrapOpt, lrapRow, selectCols, gtOnePos, predsOnePos, List.zip,
    List.filter]

/-- Concrete evaluation: on gtOnePos the mean squared error succeeds. -/
theorem msq_onePos :
    msqOpt (keptIdx gtOnePos tags2.length).length
      (selectCols gtOnePos (keptIdx gtOnePos tags2.length))
      (selectCols predsOnePos (keptIdx gtOnePos tags2.length)) = some (5/32) := by
  rw [kept_onePos]
  norm_num [msqOpt, selectCols, gtOnePos, predsOnePos, List.zip]

/-- Concrete evaluation: on gtOnePos the macro average precision
succeeds with value 1. -/
theorem apMacro_onePos :
    apMacroOpt (keptIdx gtOnePos tags2.length).length
      (selectCols gtOnePos (keptIdx gtOnePos tags2.length))
      (selectCols predsOnePos (keptIdx gtOnePos tags2.length)) = some 1 := by
  rw [kept_onePos]
  norm_num [apMacroOpt, apAllOpt, apCol, colPairs, col, posOf, tpGe, tpGt, fpGe,
    selectCols, gtOnePos, predsOnePos, List.zip, List.filter, List.range_succ,
    seqOpt, List.dedup_cons_of_mem, List.dedup_cons_of_not_mem]

/-- Concrete evaluation: on gtOnePos the macro ROC-AUC raises, column 0
being all-positive. -/
theorem rocMacro_onePos :
    rocMacroOpt (keptIdx gtOnePos tags2.length).length
      (selectCols gtOnePos (keptIdx gtOnePos tags2.length))
      (selectCols predsOnePos (keptIdx gtOnePos tags2.length)) = none := by
  rw [kept_onePos]
  norm_num [rocMacroOpt, rocAllOpt, rocCol, colPairs, col, posOf, negOf,
    selectCols, gtOnePos, predsOnePos, List.zip, List.filter, List.range_succ,
    seqOpt]

/-- C1 counterexample: the claim states that on the ground truth
[[1,0,1,0],[0,0,1,0],[1,0,0,0]] only column index 1 is dropped and the
retained label count is 3.  On the code column index 3 also has sum 0,
so two columns are dropped and the retained count is 2. -/
theorem claim1_counterexample :
    (keptIdx gtScenario1 4).length = 2
    ∧ ¬ ((keptIdx gtScenario1 4).length = 3)
    ∧ colSum gtScenario1 3 ≤ 0 := by
  norm_num [keptIdx, colSum, col, gtScenario1, List.filter, List.range_succ]

/-- C1 (amended): every label column whose ground-truth sum is at most
0 is removed before any AUC/PR computation, and the macro ROC-AUC and
macro PR-AUC of get_auc_turbo are the unweighted means of the
per-column scores over the retained columns only; in particular, for
the 4-label ground truth [[1,0,1,0],[0,0,1,0],[1,0,0,0]] the columns at
indices 1 and 3 are dropped and the retained label count is 2. -/
theorem claim1_filter_and_means (y_preds y_true : Mat) (labels : List String)
    (rs ps : List ℚ) (hne : y_true ≠ [])
    (hk : keptIdx y_true labels.length ≠ [])
    (hroc : seqOpt ((keptIdx y_true labels.length).map
      (fun j => rocCol (colPairs y_preds y_true j))) = some rs)
    (hap : seqOpt ((keptIdx y_true labels.length).map
      (fun j => apCol (colPairs y_preds y_true j))) = some ps) :
    (∀ j, colSum y_true j ≤ 0 → j ∉ keptIdx y_true labels.length)
    ∧ (get_auc_turbo y_preds y_true labels).score_roc_auc
        = rs.sum / ((keptIdx y_true labels.length).length : ℚ)
    ∧ (get_auc_turbo y_preds y_true labels).score_pr_auc
        = ps.sum / ((keptIdx y_true labels.length).length : ℚ)
    ∧ keptIdx gtScenario1 4 = [0, 2] := by
  obtain ⟨h1, h2, _, _⟩ :=
    get_auc_turbo_success y_preds y_true labels rs ps hne hk hroc hap
  refine ⟨?_, h1, h2,
    by norm_num [keptIdx, colSum, col, gtScenario1, List.filter, List.range_succ]⟩
  intro j hj hmem
  simp only [keptIdx, List.mem_filter, List.mem_range, decide_eq_true_eq] at hmem
  exact absurd hmem.2 (not_lt.mpr hj)

/-- C1 witness at the scenario input, on which both retained columns
score 1 for ROC-AUC and for average precision. -/
theorem claim1_witness :
    (get_auc_turbo predsScenario1 gtScenario1 tags4).score_roc_auc
      = ([1, 1] : List ℚ).sum / ((keptIdx gtScenario1 tags4.length).length : ℚ)
    ∧ (get_auc_turbo predsScenario1 gtScenario1 tags4).score_pr_auc
      = ([1, 1] : List ℚ).sum / ((keptIdx gtScenario1 tags4.length).length : ℚ) :=
  ⟨(claim1_filter_and_means predsScenario1 gtScenario1 tags4 [1, 1] [1, 1]
      (by simp [gtScenario1]) (by rw [kept_scenario1]; simp)
      rocSeq_scenario1 apSeq_scenario1).2.1,
   (claim1_filter_and_means predsScenario1 gtScenario1 tags4 [1, 1] [1, 1]
      (by simp [gtScenario1]) (by rw [kept_scenario1]; simp)
      rocSeq_scenario1 apSeq_scenario1).2.2.1⟩

/-- C5 counterexample: the claim states that each persisted per-label
vector has length equal to the originally requested pre-filtering label
count.  On the code, when the per-label sklearn calls succeed, the
vectors have the length of the retained label set: on a 3-label input
with one degenerate column the persisted roc vector has length 2. -/
theorem claim5_counterexample :
    ((get_auc_turbo predsTwoKept gtTwoKept tags3).score_roc_auc_all).length = 2
    ∧ tags3.length = 3
    ∧ ¬ (((get_auc_turbo predsTwoKept gtTwoKept tags3).score_roc_auc_all).length
          = tags3.length) := by
  obtain ⟨-, -, h3, -⟩ :=
    get_auc_turbo_success predsTwoKept gtTwoKept tags3 [1, 1] [1, 1]
      (by simp [gtTwoKept]) (by rw [kept_twoKept]; simp)
      rocSeq_twoKept apSeq_twoKept
  rw [h3]
  exact ⟨rfl, rfl, by norm_num [tags3]⟩

/-- C5 (amended): for every (subset, split) pair the Evaluation Runner
persists exactly two metric-vector files, named
roc_auc_(subset)_(split).npy and pr_auc_(subset)_(split).npy; when the
per-label metric computations succeed, each holds the per-label vector
over the retained (post-filtering) labels, whose length is the retained
label count (the full pre-filtering length occurs only in the zero-fill
failure path). -/
theorem claim5_artifacts (subset : String) (split : Nat)
    (y_preds y_true : Mat) (labels : List String) (rs ps : List ℚ)
    (hne : y_true ≠ [])
    (hk : keptIdx y_true labels.length ≠ [])
    (hroc : seqOpt ((keptIdx y_true labels.length).map
      (fun j => rocCol (colPairs y_preds y_true j))) = some rs)
    (hap : seqOpt ((keptIdx y_true labels.length).map
      (fun j => apCol (colPairs y_preds y_true j))) = some ps) :
    savedArtifacts subset split (get_auc_turbo y_preds y_true labels)
      = [("roc_auc_" ++ subset ++ "_" ++ toString split ++ ".npy", rs),
         ("pr_auc_" ++ subset ++ "_" ++ toString split ++ ".npy", ps)]
    ∧ rs.length = (keptIdx y_true labels.length).length
    ∧ ps.length = (keptIdx y_true labels.length).length := by
  obtain ⟨-, -, h3, h4⟩ :=
    get_auc_turbo_success y_preds y_true labels rs ps hne hk hroc hap
  refine ⟨?_, ?_, ?_⟩
  · simp [savedArtifacts, roc_auc_fn, pr_auc_fn, h3, h4]
  · have h := seqOpt_length hroc
    simpa using h
  · have h := seqOpt_length hap
    simpa using h

/-- C5 witness at a concrete subset, split and input. -/
theorem claim5_witness :
    savedArtifacts "moodtheme" 0 (get_auc_turbo predsTwoKept gtTwoKept tags3)
      = [("roc_auc_" ++ "moodtheme" ++ "_" ++ toString (0 : Nat) ++ ".npy", [1, 1]),
         ("pr_auc_" ++ "moodtheme" ++ "_" ++ toString (0 : Nat) ++ ".npy", [1, 1])]
    ∧ ([1, 1] : List ℚ).length = (keptIdx gtTwoKept tags3.length).length
    ∧ ([1, 1] : List ℚ).length = (keptIdx gtTwoKept tags3.length).length :=
  claim5_artifacts "moodtheme" 0 predsTwoKept gtTwoKept tags3 [1, 1] [1, 1]
    (by simp [gtTwoKept]) (by rw [kept_twoKept]; simp)
    rocSeq_twoKept apSeq_twoKept

end JamendoSolver

namespace JamendoSolver

/-- C6: degenerate-failure policy of get_auc_turbo.  If no column is
retained, every scalar metric is 0 and both per-label vectors are
zero-filled at the full unfiltered label count; if the per-label
computation raises, both per-label vectors stay zero-filled at full
length; if the first scalar computation raises, all four scalar metrics
stay 0; and if only the macro ROC-AUC call raises (for instance a
retained all-positive column, the case where only one class is present
in a macro path), the scalars computed before it keep their values and
exactly the affected scalar, score_roc_auc, is 0.  In every case
get_auc_turbo returns a report: the except blocks of the source swallow
the ValueError, which the embedding renders by totality. -/
theorem claim6_degenerate_policy (y_preds y_true : Mat) (labels : List String) :
    (keptIdx y_true labels.length = [] →
      get_auc_turbo y_preds y_true labels =
        { score_accuracy := 0, score_lwlrap := 0, score_mse := 0,
          score_pr_auc := 0, score_roc_auc := 0,
          score_roc_auc_all := List.replicate labels.length 0,
          score_pr_auc_all := List.replicate labels.length 0 })
    ∧ (rocAllOpt (keptIdx y_true labels.length).length
          (selectCols y_true (keptIdx y_true labels.length))
          (selectCols y_preds (keptIdx y_true labels.length)) = none →
        (get_auc_turbo y_preds y_true labels).score_roc_auc_all
            = List.replicate labels.length 0
        ∧ (get_auc_turbo y_preds y_true labels).score_pr_auc_all
            = List.replicate labels.length 0)
    ∧ (lwlrapOpt (keptIdx y_true labels.length).length
          (selectCols y_true (keptIdx y_true labels.length))
          (selectCols y_preds (keptIdx y_true labels.length)) = none →
        (get_auc_turbo y_preds y_true labels).score_lwlrap = 0
        ∧ (get_auc_turbo y_preds y_true labels).score_mse = 0
        ∧ (get_auc_turbo y_preds y_true labels).score_pr_auc = 0
        ∧ (get_auc_turbo y_preds y_true labels).score_roc_auc = 0)
    ∧ (∀ a b pa : ℚ,
        lwlrapOpt (keptIdx y_true labels.length).length
          (selectCols y_true (keptIdx y_true labels.length))
          (selectCols y_preds (keptIdx y_true labels.length)) = some a →
        msqOpt (keptIdx y_true labels.length).length
          (selectCols y_true (keptIdx y_true labels.length))
          (selectCols y_preds (keptIdx y_true labels.length)) = some b →
        apMacroOpt (keptIdx y_true labels.length).length
          (selectCols y_true (keptIdx y_true labels.length))
          (selectCols y_preds (keptIdx y_true labels.length)) = some pa →
        rocMacroOpt (keptIdx y_true labels.length).length
          (selectCols y_true (keptIdx y_true labels.length))
          (selectCols y_preds (keptIdx y_true labels.length)) = none →
        (get_auc_turbo y_preds y_true labels).score_lwlrap = a
        ∧ (get_auc_turbo y_preds y_true labels).score_mse = b
        ∧ (get_auc_turbo y_preds y_true labels).score_pr_auc = pa
        ∧ (get_auc_turbo y_preds y_true labels).score_roc_auc = 0) := by
  refine ⟨get_auc_turbo_empty y_preds y_true labels, ?_, ?_, ?_⟩
  · intro h
    have hv := tryVectors_none1 (keptIdx y_true labels.length).length
      (selectCols y_true (keptIdx y_true labels.length))
      (selectCols y_preds (keptIdx y_true labels.length)) labels.length h
    constructor
    · show (tryVectors (keptIdx y_true labels.length).length
        (selectCols y_true (keptIdx y_true labels.length))
        (selectCols y_preds (keptIdx y_true labels.length)) labels.length).1 = _
      rw [hv]
    · show (tryVectors (keptIdx y_true labels.length).length
        (selectCols y_true (keptIdx y_true labels.length))
        (selectCols y_preds (keptIdx y_true labels.length)) labels.length).2 = _
      rw [hv]
  · intro h
    have hs := tryScalars_none1 (keptIdx y_true labels.length).length
      (selectCols y_true (keptIdx y_true labels.length))
      (selectCols y_preds (keptIdx y_true labels.length)) h
    refine ⟨?_, ?_, ?_, ?_⟩
    · show (tryScalars (keptIdx y_true labels.length).length
        (selectCols y_true (keptIdx y_true labels.length))
        (selectCols y_preds (keptIdx y_true labels.length))).1 = _
      rw [hs]
    · show (tryScalars (keptIdx y_true labels.length).length
        (selectCols y_true (keptIdx y_true labels.length))
        (selectCols y_preds (keptIdx y_true labels.length))).2.1 = _
      rw [hs]
    · show (tryScalars (keptIdx y_true labels.length).length
        (selectCols y_true (keptIdx y_true labels.length))
        (selectCols y_preds (keptIdx y_true labels.length))).2.2.1 = _
      rw [hs]
    · show (tryScalars (keptIdx y_true labels.length).length
        (selectCols y_true (keptIdx y_true labels.length))
        (selectCols y_preds (keptIdx y_true labels.length))).2.2.2 = _
      rw [hs]
  · intro a b pa h1 h2 h3 h4
    have hs := tryScalars_none4 (keptIdx y_true labels.length).length
      (selectCols y_true (keptIdx y_true labels.length))
      (selectCols y_preds (keptIdx y_true labels.length)) a b pa h1 h2 h3 h4
    refine ⟨?_, ?_, ?_, ?_⟩
    · show (tryScalars (keptIdx y_true labels.length).length
        (selectCols y_true (keptIdx y_true labels.length))
        (selectCols y_preds (keptIdx y_true labels.length))).1 = _
      rw [hs]
    · show (tryScalars (keptIdx y_true labels.length).length
        (selectCols y_true (keptIdx y_true labels.length))
        (selectCols y_preds (keptIdx y_true labels.length))).2.1 = _
      rw [hs]
    · show (tryScalars (keptIdx y_true labels.length).length
        (selectCols y_true (keptIdx y_true labels.length))
        (selectCols y_preds (keptIdx y_true labels.length))).2.2.1 = _
      rw [hs]
    · show (tryScalars (keptIdx y_true labels.length).length
        (selectCols y_true (keptIdx y_true labels.length))
        (selectCols y_preds (keptIdx y_true labels.length))).2.2.2 = _
      rw [hs]

/-- C6 witness at the all-degenerate input gtZero, and at gtOnePos,
where the earlier scalar calls succeed and only the macro ROC call
raises, so exactly the affected scalar is 0. -/
theorem claim6_witness :
    (get_auc_turbo predsZero gtZero tags2 =
      { score_accuracy := 0, score_lwlrap := 0, score_mse := 0,
        score_pr_auc := 0, score_roc_auc := 0,
        score_roc_auc_all := List.replicate tags2.length 0,
        score_pr_auc_all := List.replicate tags2.length 0 })
    ∧ ((get_auc_turbo predsOnePos gtOnePos tags2).score_lwlrap = 1
       ∧ (get_auc_turbo predsOnePos gtOnePos tags2).score_mse = 5/32
       ∧ (get_auc_turbo predsOnePos gtOnePos tags2).score_pr_auc = 1
       ∧ (get_auc_turbo predsOnePos gtOnePos tags2).score_roc_auc = 0) :=
  ⟨(claim6_degenerate_policy predsZero gtZero tags2).1 kept_zero,
   (claim6_degenerate_policy predsOnePos gtOnePos tags2).2.2.2 1 (5/32) 1
     lwlrap_onePos msq_onePos apMacro_onePos rocMacro_onePos⟩

/-- C7: the best validation metric of Solver.train is updated, together
with a checkpoint save of the current model state, exactly when the
epoch validation roc_auc strictly exceeds the best so far; otherwise
both the best metric and the checkpoint slot are untouched; and over
any sequence of validation results the best metric never decreases. -/
theorem claim7_best_metric :
    (∀ (ctx : TrainCtx) (m : StateDict) (v : ℚ),
      (ctx.best_roc_auc < v →
        valStep ctx m v = { best_roc_auc := v, ckpt := trainSave m })
      ∧ (¬ ctx.best_roc_auc < v → valStep ctx m v = ctx))
    ∧ (∀ (ctx : TrainCtx) (obs : List (StateDict × ℚ)),
        ctx.best_roc_auc ≤ (runVal ctx obs).best_roc_auc) := by
  constructor
  · intro ctx m v
    constructor
    · intro h
      simp [valStep, h]
    · intro h
      simp [valStep, h]
  · intro ctx obs
    induction obs generalizing ctx with
    | nil => simp [runVal]
    | cons o t ih =>
      have hstep : runVal ctx (o :: t) = runVal (valStep ctx o.1 o.2) t := rfl
      rw [hstep]
      have h1 : ctx.best_roc_auc ≤ (valStep ctx o.1 o.2).best_roc_auc := by
        unfold valStep
        by_cases h : ctx.best_roc_auc < o.2
        · rw [if_pos h]
          exact le_of_lt h
        · rw [if_neg h]
      exact le_trans h1 (ih (valStep ctx o.1 o.2))

/-- C7 witness: a strictly better score updates the best metric and the
slot; the initial best 0 is below the run result at a concrete
sequence. -/
theorem claim7_witness :
    valStep { best_roc_auc := 0, ckpt := none } sd1 (1/2)
      = { best_roc_auc := 1/2, ckpt := trainSave sd1 }
    ∧ ({ best_roc_auc := 0, ckpt := none } : TrainCtx).best_roc_auc
        ≤ (runVal { best_roc_auc := 0, ckpt := none } [(sd1, 1/2)]).best_roc_auc :=
  ⟨(claim7_best_metric.1 { best_roc_auc := 0, ckpt := none } sd1 (1/2)).1 (by norm_num),
   claim7_best_metric.2 { best_roc_auc := 0, ckpt := none } [(sd1, 1/2)]⟩

/-- C9: the subset dispatch fixes the class count and the active label
slice exactly as claimed: all is the full 183-label list, genre the
first 87 labels, instrument the 40 labels at indices 87 to 126,
moodtheme the 56 labels at indices 127 to 182, and top50tags the
separate 50-label list with class count 50. -/
theorem claim9_subset_ranges (fullList top50 : List String)
    (hf : fullList.length = 183) (ht : top50.length = 50) :
    initTagConfig "all" fullList top50 = some (183, fullList)
    ∧ initTagConfig "genre" fullList top50 = some (87, fullList.take 87)
    ∧ (fullList.take 87).length = 87
    ∧ initTagConfig "instrument" fullList top50 = some (40, (fullList.drop 87).take 40)
    ∧ ((fullList.drop 87).take 40).length = 40
    ∧ (∀ i, i < 40 → ((fullList.drop 87).take 40)[i]? = fullList[87 + i]?)
    ∧ initTagConfig "moodtheme" fullList top50 = some (56, fullList.drop 127)
    ∧ (fullList.drop 127).length = 56
    ∧ (∀ i, i < 56 → (fullList.drop 127)[i]? = fullList[127 + i]?)
    ∧ initTagConfig "top50tags" fullList top50 = some (50, top50)
    ∧ top50.length = 50 := by
  refine ⟨by simp [initTagConfig], by simp [initTagConfig], by simp [hf],
    by simp [initTagConfig], by simp [hf], ?_,
    by simp [initTagConfig], by simp [hf], ?_,
    by simp [initTagConfig], ht⟩
  · intro i hi
    rw [List.getElem?_take_of_lt hi, List.getElem?_drop]
  · intro i _
    exact List.getElem?_drop fullList 127 i

/-- C9 witness at concrete label lists of the contractual lengths. -/
theorem claim9_witness :
    initTagConfig "all" (List.replicate 183 "t") (List.replicate 50 "s")
      = some (183, List.replicate 183 "t")
    ∧ initTagConfig "top50tags" (List.replicate 183 "t") (List.replicate 50 "s")
      = some (50, List.replicate 50 "s")
    ∧ ((List.replicate 183 "t" : List String).drop 127).length = 56 :=
  ⟨(claim9_subset_ranges (List.replicate 183 "t") (List.replicate 50 "s")
      (List.length_replicate 183 "t") (List.length_replicate 50 "s")).1,
   (claim9_subset_ranges (List.replicate 183 "t") (List.replicate 50 "s")
      (List.length_replicate 183 "t") (List.length_replicate 50 "s")).2.2.2.2.2.2.2.2.2.1,
   (claim9_subset_ranges (List.replicate 183 "t") (List.replicate 50 "s")
      (List.length_replicate 183 "t") (List.length_replicate 50 "s")).2.2.2.2.2.2.2.1⟩

end JamendoSolver
